import Mathlib

/-!
Shallow embedding of the Splinter backend client
(`src/sdk/src/backend/splinter.rs`): service-address resolution,
batch submission, batch-status queries, and status normalization.

Strings are embedded as Lean `String`; Rust's `str::split("::")` is
embedded as a recursive function on the underlying character list,
with the same non-overlapping left-to-right semantics (an empty input
yields one empty segment, a trailing delimiter yields a trailing empty
segment). External effects (protobuf serialization, the HTTP transport,
JSON parsing of the response body) enter the model as explicit outcome
parameters, so each operation is a pure function of its request and of
those outcomes.
-/

set_option autoImplicit false

/-- Modelled from the spec (section 7): the backend error type from the
parent module, with the two variants used by this file. -/
inductive BackendClientError where
  | BadRequestError (msg : String)
  | InternalError (msg : String)
deriving DecidableEq, Repr

/-- Rust `str::split("::")` over the character list: scan left to right,
cut a segment at each non-overlapping occurrence of `':' ':'`. -/
def splitColons : List Char → List (List Char)
  | [] => [[]]
  | [c] => [[c]]
  | c1 :: c2 :: rest =>
    if c1 = ':' ∧ c2 = ':' then
      [] :: splitColons rest
    else
      match splitColons (c2 :: rest) with
      | [] => [[c1]]
      | seg :: segs => (c1 :: seg) :: segs

/-- True when the character list contains an occurrence of `"::"`. -/
def hasColons : List Char → Bool
  | c1 :: c2 :: rest => (c1 == ':' && c2 == ':') || hasColons (c2 :: rest)
  | _ => false

/-- True when the character list ends with a `':'`. -/
def endsColon : List Char → Bool
  | [] => false
  | [c] => c == ':'
  | _ :: c2 :: rest => endsColon (c2 :: rest)

/-- The circuit/service address (source lines 199-202). -/
structure SplinterService where
  circuit_id : String
  service_id : String
deriving DecidableEq, Repr

/-- `SplinterService::from_str` (source lines 204-229): split the input on
`"::"`; a missing first segment is the first error branch, a missing second
segment the second; otherwise the first two segments form the address. -/
def SplinterService.from_str (s : String) : Except BackendClientError SplinterService :=
  match splitColons s.data with
  | [] => .error (.BadRequestError "Empty service_id parameter provided")
  | [_] => .error (.BadRequestError
      "Must provide a fully-qualified service_id: <circuit_id>::<service_id>")
  | circuit_id :: service_id :: _ =>
    .ok { circuit_id := circuit_id.asString, service_id := service_id.asString }

deriving instance DecidableEq for Except

/-- Standard base64 alphabet, as used by `base64::encode`. -/
def base64.alphabet : String :=
  "ABCDEFGHIJKLMNOPQRSTUVWXYZabcdefghijklmnopqrstuvwxyz0123456789+/"

/-- The base64 digit for a sextet value. -/
def base64.char (n : Nat) : Char := base64.alphabet.data.getD n 'A'

/-- `base64::encode` with standard alphabet and `=` padding, over bytes
modelled as `Nat`. -/
def base64.encode : List Nat → String
  | [] => ""
  | [b0] => String.mk [base64.char (b0 / 4), base64.char (b0 % 4 * 16), '=', '=']
  | [b0, b1] => String.mk [base64.char (b0 / 4), base64.char (b0 % 4 * 16 + b1 / 16),
      base64.char (b1 % 16 * 4), '=']
  | b0 :: b1 :: b2 :: rest =>
    String.mk [base64.char (b0 / 4), base64.char (b0 % 4 * 16 + b1 / 16),
      base64.char (b1 % 16 * 4 + b2 / 64), base64.char (b2 % 64)] ++ base64.encode rest

/-- One per-transaction entry of the remote status payload
(source lines 172-177). -/
structure ErrorMessage where
  transaction_id : String
  error_message : Option String
  error_data : Option (List Nat)
deriving DecidableEq, Repr

/-- The `status` object of the remote payload (source lines 165-170);
`status_type` is the wire field `statusType`. -/
structure Status where
  status_type : String
  message : List ErrorMessage
deriving DecidableEq, Repr

/-- The remote (wire) batch status (source lines 159-163). -/
structure SplinterBatchStatus where
  id : String
  status : Status
deriving DecidableEq, Repr

/-- Modelled from the spec (section 3, NormalizedBatchStatus): an
invalid-transaction record of the backend-agnostic result type, declared
in the parent module. -/
structure InvalidTransaction where
  id : String
  message : String
  extended_data : String
deriving DecidableEq, Repr

/-- Modelled from the spec (section 3, NormalizedBatchStatus): the
backend-agnostic batch status, declared in the parent module. -/
structure BatchStatus where
  id : String
  status : String
  invalid_transactions : List InvalidTransaction
deriving DecidableEq, Repr

/-- `From<SplinterBatchStatus> for BatchStatus` (source lines 179-197):
keep `id` and the status type, and turn each message entry that has both
`error_message` and `error_data` into an `InvalidTransaction`, unwrapping
the two options and base64-encoding the error data. -/
def SplinterBatchStatus.toBatchStatus (batch_status : SplinterBatchStatus) : BatchStatus :=
  { id := batch_status.id
    status := batch_status.status.status_type
    invalid_transactions :=
      (batch_status.status.message.filter
          (fun message => message.error_message.isSome && message.error_data.isSome)).map
        (fun message =>
          { id := message.transaction_id
            message := message.error_message.get!
            extended_data := base64.encode message.error_data.get! }) }

/-- Modelled from the spec (glossary): a batch, reduced to the one field
this component reads — its header signature. -/
structure Batch where
  header_signature : String
deriving DecidableEq, Repr

/-- Modelled from the spec (section 3): the opaque serializable collection
of batches inside a SubmitRequest. -/
structure BatchList where
  batches : List Batch
deriving DecidableEq, Repr

/-- Modelled from the url crate as the spec uses it (section 3): a URL is
everything before the query (`base`), an optional query component and an
optional fragment; `set_query` replaces the whole query component. -/
structure Url where
  base : String
  query : Option String
  fragment : Option String
deriving DecidableEq, Repr

/-- `Url::set_query`: replace the entire query component, leaving every
other component unchanged. -/
def Url.set_query (u : Url) (q : Option String) : Url := { u with query := q }

/-- `Url::to_string`: base, then `?query` when present, then `#fragment`
when present. -/
def Url.render (u : Url) : String :=
  u.base ++ (match u.query with | some q => "?" ++ q | none => "")
    ++ (match u.fragment with | some f => "#" ++ f | none => "")

/-- Modelled from the spec (section 3, SubmitRequest): the submission
request type from the parent module. -/
structure SubmitBatches where
  service_id : Option String
  batch_list : BatchList
  response_url : Url

/-- Modelled from the spec (section 3, StatusQuery): the status-query type
from the parent module. -/
structure BatchStatuses where
  service_id : Option String
  batch_ids : List String
  wait : Option Nat

/-- Modelled from the spec (section 3): the link result type from the
parent module. -/
structure BatchStatusLink where
  link : String
deriving DecidableEq, Repr

/-- The client (source lines 36-40): node URL and authorization value. -/
structure SplinterBackendClient where
  node_url : String
  authorization : String

/-- An HTTP response from the transport; `submit_batches` never inspects
it, `batch_status` hands its body to the JSON parser. -/
structure HttpResponse where
  status_code : Nat
  body : String

/-- The POST request `submit_batches` hands to the transport
(source lines 84-90). -/
structure SubmitHttpRequest where
  url : String
  protocol_version : String
  content_type : String
  authorization : String
  body : List Nat
deriving DecidableEq, Repr

/-- The GET request `batch_status` hands to the transport
(source lines 130-134). -/
structure StatusHttpRequest where
  url : String
  protocol_version : String
  authorization : String
deriving DecidableEq, Repr

/-- The comma-joined header signatures of every batch, in order
(source lines 73-79). -/
def batchQuery (batch_list : BatchList) : String :=
  String.intercalate "," (batch_list.batches.map Batch.header_signature)

/-- The part of `submit_batches` (source lines 58-90) that runs before
`.send()`: the three `try_fut!` validations, the URL, the request body and
the response link. `write_to_bytes` is the outcome of
`msg.batch_list.write_to_bytes()`. Returns the prepared request and the
link; an error here means the transport is never invoked. -/
def submit_prepare (client : SplinterBackendClient) (msg : SubmitBatches)
    (write_to_bytes : Except String (List Nat)) :
    Except BackendClientError (SubmitHttpRequest × String) :=
  match msg.service_id with
  | none => .error (.BadRequestError "A service id must be provided")
  | some service_arg =>
    match SplinterService.from_str service_arg with
    | .error err => .error err
    | .ok service_info =>
      let url := client.node_url ++ "/scabbard/" ++ service_info.circuit_id ++ "/"
        ++ service_info.service_id ++ "/batches"
      match write_to_bytes with
      | .error err => .error (.BadRequestError ("Malformed batch list: " ++ err))
      | .ok batch_list_bytes =>
        let batch_query := batchQuery msg.batch_list
        let response_url := msg.response_url.set_query (some ("id=" ++ batch_query))
        let link := response_url.render
        .ok ({ url := url, protocol_version := "1", content_type := "octet-stream"
               authorization := client.authorization, body := batch_list_bytes }, link)

/-- `submit_batches` (source lines 54-101): prepare, then fold in the
transport outcome exactly as the `.then` continuation does — any `Ok`
response (its status code is never read) yields the link, a transport
error becomes an `InternalError`. -/
def submit_batches (client : SplinterBackendClient) (msg : SubmitBatches)
    (write_to_bytes : Except String (List Nat))
    (transport : Except String HttpResponse) :
    Except BackendClientError BatchStatusLink :=
  match submit_prepare client msg write_to_bytes with
  | .error err => .error err
  | .ok (_, link) =>
    match transport with
    | .ok _ => .ok { link := link }
    | .error err => .error (.InternalError ("Unable to submit batch: " ++ err))

/-- Whether `submit_batches` reaches `.send()`: exactly when every
`try_fut!` before it succeeded. -/
def submit_network_called (client : SplinterBackendClient) (msg : SubmitBatches)
    (write_to_bytes : Except String (List Nat)) : Bool :=
  match submit_prepare client msg write_to_bytes with
  | .ok _ => true
  | .error _ => false

/-- The part of `batch_status` (source lines 107-134) that runs before
`.send()`: the two `try_fut!` validations and the query URL, built by the
same sequence of `push_str` appends as the source. -/
def batch_status_prepare (client : SplinterBackendClient) (msg : BatchStatuses) :
    Except BackendClientError StatusHttpRequest :=
  match msg.service_id with
  | none => .error (.BadRequestError "A service id must be provided")
  | some service_arg =>
    match SplinterService.from_str service_arg with
    | .error err => .error err
    | .ok service_info =>
      let url0 := client.node_url
      let url1 := url0 ++ "/scabbard/"
      let url2 := url1 ++ service_info.circuit_id
      let url3 := url2 ++ "/"
      let url4 := url3 ++ service_info.service_id
      let url5 := url4 ++ "/batch_statuses?"
      let url6 := match msg.wait with
        | some wait_time => (url5 ++ "wait=" ++ toString wait_time) ++ "&"
        | none => url5
      let url7 := (url6 ++ "ids=") ++ String.intercalate "," msg.batch_ids
      .ok { url := url7, protocol_version := "1", authorization := client.authorization }

/-- `batch_status` (source lines 103-152): prepare, then fold in the
transport outcome and the JSON parse of the body exactly as the
`.then`/`.map` chain does — a transport error and a parse error flow into
the same `InternalError`, a parsed list is normalized entrywise. -/
def batch_status (client : SplinterBackendClient) (msg : BatchStatuses)
    (transport : Except String HttpResponse)
    (json : HttpResponse → Except String (List SplinterBatchStatus)) :
    Except BackendClientError (List BatchStatus) :=
  match batch_status_prepare client msg with
  | .error err => .error err
  | .ok _ =>
    let result := match transport with
      | .ok res => json res
      | .error err => .error err
    match result with
    | .ok stats => .ok (stats.map SplinterBatchStatus.toBatchStatus)
    | .error err => .error (.InternalError ("Unable to retrieve batch statuses: " ++ err))

/-- Whether `batch_status` reaches `.send()`: exactly when both `try_fut!`
validations succeeded. -/
def status_network_called (client : SplinterBackendClient) (msg : BatchStatuses) : Bool :=
  match batch_status_prepare client msg with
  | .ok _ => true
  | .error _ => false

/-- String append concatenates the character lists. -/
theorem string_data_append (s t : String) : (s ++ t).data = s.data ++ t.data := rfl

/-- Rebuilding a string from its character list is the identity. -/
theorem asString_data (s : String) : s.data.asString = s := rfl

/-- A string is empty exactly when its character list is. -/
theorem data_eq_nil_iff (s : String) : s.data = [] ↔ s = "" := by
  constructor
  · intro h
    cases s with
    | mk l => cases h; rfl
  · intro h
    subst h
    rfl

/-- Splitting never yields the empty list of segments. -/
theorem splitColons_ne_nil : ∀ l : List Char, splitColons l ≠ []
  | [] => by simp [splitColons]
  | [c] => by simp [splitColons]
  | c1 :: c2 :: rest => by
    rw [splitColons]
    split
    · simp
    · cases h : splitColons (c2 :: rest) <;> simp

/-- A list with no `"::"` occurrence splits into the single segment
consisting of the whole list. -/
theorem splitColons_of_no_colons : ∀ l : List Char, hasColons l = false → splitColons l = [l]
  | [], _ => rfl
  | [c], _ => rfl
  | c1 :: c2 :: rest, h => by
    rw [hasColons, Bool.or_eq_false_iff] at h
    obtain ⟨h1, h2⟩ := h
    rw [splitColons]
    rw [if_neg (by simpa using h1)]
    rw [splitColons_of_no_colons (c2 :: rest) h2]

/-- Splitting a list of the shape `xs ++ "::" ++ ys`, where `xs` holds no
`"::"` and does not end in `':'`, cuts exactly at the middle delimiter. -/
theorem splitColons_append (ys : List Char) :
    ∀ xs : List Char, hasColons xs = false → endsColon xs = false →
      splitColons (xs ++ ':' :: ':' :: ys) = xs :: splitColons ys
  | [], _, _ => by
    rw [List.nil_append, splitColons, if_pos ⟨rfl, rfl⟩]
  | [c], _, he => by
    rw [endsColon] at he
    have hc : ¬ c = ':' := by simpa using he
    rw [List.cons_append, List.nil_append, splitColons, if_neg (by simp [hc])]
    rw [splitColons, if_pos ⟨rfl, rfl⟩]
  | c1 :: c2 :: rest, hh, he => by
    rw [hasColons, Bool.or_eq_false_iff] at hh
    obtain ⟨h1, h2⟩ := hh
    rw [endsColon] at he
    rw [List.cons_append, List.cons_append, splitColons, if_neg (by simpa using h1)]
    rw [← List.cons_append]
    rw [splitColons_append ys (c2 :: rest) h2 he]

/-- When the split has at least two segments, resolution succeeds with the
first two. -/
theorem from_str_of_split (s : String) (c sv : List Char) (rest : List (List Char))
    (h : splitColons s.data = c :: sv :: rest) :
    SplinterService.from_str s = .ok ⟨c.asString, sv.asString⟩ := by
  unfold SplinterService.from_str
  rw [h]

/-- Unwrapping a present option yields its value. -/
theorem option_get_bang_some {α : Type} [Inhabited α] (a : α) : (some a).get! = a := rfl

/-- The filter-both-present-then-unwrap-and-map pass of the normalization
is the same as a single filterMap keyed on both options. -/
theorem filter_map_eq_filterMap (l : List ErrorMessage) :
    (l.filter (fun message => message.error_message.isSome && message.error_data.isSome)).map
      (fun message =>
        ({ id := message.transaction_id
           message := message.error_message.get!
           extended_data := base64.encode message.error_data.get! } : InvalidTransaction)) =
    l.filterMap (fun message =>
      match message.error_message, message.error_data with
      | some em, some ed =>
        some { id := message.transaction_id, message := em,
               extended_data := base64.encode ed }
      | _, _ => none) := by
  induction l with
  | nil => rfl
  | cons m rest ih =>
    rcases m with ⟨tid, em, ed⟩
    cases em <;> cases ed <;>
      simp [List.filter_cons, List.filterMap_cons, ih, option_get_bang_some]

/-- C1 counterexample: the claim fails when the first part ends in a colon.
With a = "x:" and b = "b" (both non-empty, neither containing a double
colon), the compound string is "x:::b", and the split cuts at the first
double colon found, yielding circuit_id "x" and service_id ":b" rather
than a and b. -/
theorem C1_counterexample :
    SplinterService.from_str ("x:" ++ "::" ++ "b") ≠ .ok ⟨"x:", "b"⟩ ∧
    SplinterService.from_str ("x:" ++ "::" ++ "b") = .ok ⟨"x", ":b"⟩ := by
  constructor
  · decide
  · rfl

/-- C1 (amended): for all non-empty strings a and b that contain no double
colon and where a does not end in a colon, resolving a ++ "::" ++ b yields
circuit_id a and service_id b; and when a further "::"-separated tail c
follows (b also not ending in a colon), the tail is ignored and the result
is still circuit_id a, service_id b. -/
theorem C1_resolution_amended :
    (∀ a b : String, a ≠ "" → b ≠ "" →
      hasColons a.data = false → hasColons b.data = false →
      endsColon a.data = false →
      SplinterService.from_str (a ++ "::" ++ b) = .ok ⟨a, b⟩) ∧
    (∀ a b c : String, a ≠ "" → b ≠ "" →
      hasColons a.data = false → hasColons b.data = false →
      endsColon a.data = false → endsColon b.data = false →
      SplinterService.from_str (a ++ "::" ++ b ++ "::" ++ c) = .ok ⟨a, b⟩) := by
  constructor
  · intro a b _ _ hca hcb hea
    have hd : (a ++ "::" ++ b).data = a.data ++ ':' :: ':' :: b.data := by
      rw [string_data_append, string_data_append, List.append_assoc]
      rfl
    have hsplit : splitColons ((a ++ "::" ++ b).data)
        = a.data :: b.data :: ([] : List (List Char)) := by
      rw [hd, splitColons_append b.data a.data hca hea,
        splitColons_of_no_colons b.data hcb]
    have h := from_str_of_split _ _ _ _ hsplit
    rwa [asString_data, asString_data] at h
  · intro a b c _ _ hca hcb hea heb
    have hd : (a ++ "::" ++ b ++ "::" ++ c).data
        = a.data ++ ':' :: ':' :: (b.data ++ ':' :: ':' :: c.data) := by
      rw [string_data_append, string_data_append, string_data_append,
        string_data_append, List.append_assoc, List.append_assoc, List.append_assoc]
      rfl
    have hsplit : splitColons ((a ++ "::" ++ b ++ "::" ++ c).data)
        = a.data :: b.data :: splitColons c.data := by
      rw [hd, splitColons_append _ a.data hca hea,
        splitColons_append c.data b.data hcb heb]
    have h := from_str_of_split _ _ _ _ hsplit
    rwa [asString_data, asString_data] at h

/-- C1 amended witness: the amended resolution theorem at the concrete
inputs "circuit1", "svc1" and ignored tail "extra". -/
theorem C1_resolution_amended_witness :
    SplinterService.from_str ("circuit1" ++ "::" ++ "svc1") = .ok ⟨"circuit1", "svc1"⟩ ∧
    SplinterService.from_str ("circuit1" ++ "::" ++ "svc1" ++ "::" ++ "extra")
      = .ok ⟨"circuit1", "svc1"⟩ :=
  ⟨C1_resolution_amended.1 "circuit1" "svc1" (by decide) (by decide) (by decide)
      (by decide) (by decide),
    C1_resolution_amended.2 "circuit1" "svc1" "extra" (by decide) (by decide)
      (by decide) (by decide) (by decide) (by decide)⟩

/-- C2 counterexample: a string ending exactly at the delimiter does not
fail; it resolves successfully with an empty service_id, violating both
the claimed BadRequest failure and the claimed non-emptiness of the fields
on success. -/
theorem C2_counterexample :
    SplinterService.from_str "circuit::" = .ok ⟨"circuit", ""⟩ := rfl

/-- C2 (amended): resolving any string that contains no "::" — in
particular the empty string and "onlyonepart" — fails with the BadRequest
error of the second branch; but a string ending exactly at the delimiter,
such as "circuit::", succeeds with an empty service_id, so a successful
resolution does not guarantee non-empty fields. -/
theorem C2_failure_amended :
    (∀ s : String, hasColons s.data = false →
      SplinterService.from_str s = .error (.BadRequestError
        "Must provide a fully-qualified service_id: <circuit_id>::<service_id>")) ∧
    SplinterService.from_str "circuit::" = .ok ⟨"circuit", ""⟩ := by
  constructor
  · intro s h
    unfold SplinterService.from_str
    rw [splitColons_of_no_colons s.data h]
  · rfl

/-- C2 amended witness: the amended failure theorem at the concrete inputs
"" and "onlyonepart". -/
theorem C2_failure_amended_witness :
    SplinterService.from_str "" = .error (.BadRequestError
      "Must provide a fully-qualified service_id: <circuit_id>::<service_id>") ∧
    SplinterService.from_str "onlyonepart" = .error (.BadRequestError
      "Must provide a fully-qualified service_id: <circuit_id>::<service_id>") :=
  ⟨C2_failure_amended.1 "" (by decide), C2_failure_amended.1 "onlyonepart" (by decide)⟩

/-- C3: normalization keeps id and statusType unchanged, and the
invalid_transactions list is exactly the in-order filterMap that keeps an
entry when both error_message and error_data are present, mapping it to
its transaction id, its message and the base64 encoding of its data;
entries missing either field contribute nothing. -/
theorem C3_normalization (bs : SplinterBatchStatus) :
    bs.toBatchStatus.id = bs.id ∧
    bs.toBatchStatus.status = bs.status.status_type ∧
    bs.toBatchStatus.invalid_transactions =
      bs.status.message.filterMap (fun message =>
        match message.error_message, message.error_data with
        | some em, some ed =>
          some { id := message.transaction_id, message := em,
                 extended_data := base64.encode ed }
        | _, _ => none) :=
  ⟨rfl, rfl, filter_map_eq_filterMap bs.status.message⟩

/-- Strings with the same character list are equal. -/
theorem string_eq_of_data {s t : String} (h : s.data = t.data) : s = t := by
  cases s
  cases t
  cases h
  rfl

/-- Appending the empty string on the left is the identity. -/
theorem string_empty_append (s : String) : "" ++ s = s := rfl

/-- String append is associative. -/
theorem string_append_assoc (a b c : String) : a ++ b ++ c = a ++ (b ++ c) := by
  apply string_eq_of_data
  rw [string_data_append, string_data_append, string_data_append, string_data_append,
    List.append_assoc]

/-- C4: with a present, well-formed service id and a serializable batch
list, the link returned on any transport success is the response URL with
its query set to id= followed by the comma-joined header signatures of the
batches in their original order — whatever the response and in particular
whatever its status code, which is never inspected. -/
theorem C4_submit_link (client : SplinterBackendClient) (msg : SubmitBatches)
    (sid : String) (info : SplinterService) (bytes : List Nat) (resp : HttpResponse)
    (h1 : msg.service_id = some sid)
    (h2 : SplinterService.from_str sid = .ok info) :
    submit_batches client msg (.ok bytes) (.ok resp) =
      .ok { link := (msg.response_url.set_query
        (some ("id=" ++ String.intercalate ","
          (msg.batch_list.batches.map Batch.header_signature)))).render } := by
  simp [submit_batches, submit_prepare, h1, h2, batchQuery]

/-- C4 witness: the link theorem at a concrete request with signatures
sig-a and sig-b and a 500 response. -/
theorem C4_submit_link_witness :
    submit_batches ⟨"http://node", "auth"⟩
      { service_id := some "circuit1::svc1"
        batch_list := { batches := [⟨"sig-a"⟩, ⟨"sig-b"⟩] }
        response_url := { base := "http://cb", query := none, fragment := none } }
      (.ok [1, 2]) (.ok ⟨500, "ignored"⟩) =
      .ok { link := "http://cb?id=sig-a,sig-b" } :=
  C4_submit_link ⟨"http://node", "auth"⟩ _ "circuit1::svc1" ⟨"circuit1", "svc1"⟩
    [1, 2] ⟨500, "ignored"⟩ rfl rfl

/-- C5: with a present, well-formed service id, the status query URL is
the node URL, /scabbard/, the circuit id, /, the service id,
/batch_statuses?, then wait=n& exactly when wait is present, then ids=
followed by the comma-joined batch ids in their original order. -/
theorem C5_status_url (client : SplinterBackendClient) (msg : BatchStatuses)
    (sid : String) (info : SplinterService)
    (h1 : msg.service_id = some sid)
    (h2 : SplinterService.from_str sid = .ok info) :
    batch_status_prepare client msg = .ok
      { url := client.node_url ++ "/scabbard/" ++ info.circuit_id ++ "/"
          ++ info.service_id ++ "/batch_statuses?"
          ++ (match msg.wait with
              | some n => "wait=" ++ toString n ++ "&"
              | none => "")
          ++ ("ids=" ++ String.intercalate "," msg.batch_ids)
        protocol_version := "1"
        authorization := client.authorization } := by
  cases msg with
  | mk service_id batch_ids wait =>
    cases h1
    cases wait <;> simp only [batch_status_prepare, h2, string_append_assoc,
      string_empty_append]

/-- C5 witness: the URL theorem at concrete queries, once with wait 30 and
once without. -/
theorem C5_status_url_witness :
    batch_status_prepare ⟨"http://node", "auth"⟩
      { service_id := some "circuit1::svc1", batch_ids := ["b1", "b2"], wait := some 30 } =
      .ok { url := "http://node/scabbard/circuit1/svc1/batch_statuses?wait=30&ids=b1,b2"
            protocol_version := "1", authorization := "auth" } ∧
    batch_status_prepare ⟨"http://node", "auth"⟩
      { service_id := some "circuit1::svc1", batch_ids := ["b1", "b2"], wait := none } =
      .ok { url := "http://node/scabbard/circuit1/svc1/batch_statuses?ids=b1,b2"
            protocol_version := "1", authorization := "auth" } :=
  ⟨C5_status_url ⟨"http://node", "auth"⟩ _ "circuit1::svc1" ⟨"circuit1", "svc1"⟩ rfl rfl,
    C5_status_url ⟨"http://node", "auth"⟩ _ "circuit1::svc1" ⟨"circuit1", "svc1"⟩ rfl rfl⟩

/-- C6: a missing service id makes either operation fail with the
BadRequest error "A service id must be provided", whatever the other
arguments and outcomes, and the transport is never invoked. -/
theorem C6_missing_service_id :
    (∀ (client : SplinterBackendClient) (msg : SubmitBatches)
        (write_to_bytes : Except String (List Nat))
        (transport : Except String HttpResponse),
      msg.service_id = none →
      submit_batches client msg write_to_bytes transport
          = .error (.BadRequestError "A service id must be provided") ∧
        submit_network_called client msg write_to_bytes = false) ∧
    (∀ (client : SplinterBackendClient) (msg : BatchStatuses)
        (transport : Except String HttpResponse)
        (json : HttpResponse → Except String (List SplinterBatchStatus)),
      msg.service_id = none →
      batch_status client msg transport json
          = .error (.BadRequestError "A service id must be provided") ∧
        status_network_called client msg = false) := by
  constructor
  · intro client msg write_to_bytes transport h
    constructor <;>
      simp [submit_batches, submit_prepare, submit_network_called, h]
  · intro client msg transport json h
    constructor <;>
      simp [batch_status, batch_status_prepare, status_network_called, h]

/-- C6 witness: both operations at concrete requests with no service id. -/
theorem C6_missing_service_id_witness :
    (submit_batches ⟨"http://node", "auth"⟩
        { service_id := none, batch_list := ⟨[⟨"sig-a"⟩]⟩
          response_url := ⟨"http://cb", none, none⟩ }
        (.ok [1]) (.ok ⟨200, ""⟩)
        = .error (.BadRequestError "A service id must be provided") ∧
      submit_network_called ⟨"http://node", "auth"⟩
        { service_id := none, batch_list := ⟨[⟨"sig-a"⟩]⟩
          response_url := ⟨"http://cb", none, none⟩ } (.ok [1]) = false) ∧
    (batch_status ⟨"http://node", "auth"⟩
        { service_id := none, batch_ids := ["b1"], wait := none }
        (.ok ⟨200, "[]"⟩) (fun _ => .ok [])
        = .error (.BadRequestError "A service id must be provided") ∧
      status_network_called ⟨"http://node", "auth"⟩
        { service_id := none, batch_ids := ["b1"], wait := none } = false) :=
  ⟨C6_missing_service_id.1 ⟨"http://node", "auth"⟩ _ (.ok [1]) (.ok ⟨200, ""⟩) rfl,
    C6_missing_service_id.2 ⟨"http://node", "auth"⟩ _ (.ok ⟨200, "[]"⟩) (fun _ => .ok []) rfl⟩

/-- C7: when serialization of the batch list fails, submission fails with
the BadRequest error "Malformed batch list: " followed by the underlying
error text, whatever the transport outcome, and the transport is never
invoked. -/
theorem C7_serialize_error (client : SplinterBackendClient) (msg : SubmitBatches)
    (sid : String) (info : SplinterService) (err : String)
    (transport : Except String HttpResponse)
    (h1 : msg.service_id = some sid)
    (h2 : SplinterService.from_str sid = .ok info) :
    submit_batches client msg (.error err) transport
        = .error (.BadRequestError ("Malformed batch list: " ++ err)) ∧
      submit_network_called client msg (.error err) = false := by
  constructor <;>
    simp [submit_batches, submit_prepare, submit_network_called, h1, h2]

/-- C7 witness: the serialization-failure theorem at a concrete request
whose batch list fails to serialize with text "proto error". -/
theorem C7_serialize_error_witness :
    submit_batches ⟨"http://node", "auth"⟩
        { service_id := some "circuit1::svc1", batch_list := ⟨[⟨"sig-a"⟩]⟩
          response_url := ⟨"http://cb", none, none⟩ }
        (.error "proto error") (.ok ⟨200, ""⟩)
        = .error (.BadRequestError "Malformed batch list: proto error") ∧
      submit_network_called ⟨"http://node", "auth"⟩
        { service_id := some "circuit1::svc1", batch_list := ⟨[⟨"sig-a"⟩]⟩
          response_url := ⟨"http://cb", none, none⟩ } (.error "proto error") = false :=
  C7_serialize_error ⟨"http://node", "auth"⟩ _ "circuit1::svc1" ⟨"circuit1", "svc1"⟩
    "proto error" (.ok ⟨200, ""⟩) rfl rfl

/-- C8: once request construction has succeeded, a transport failure of
submission becomes the InternalError "Unable to submit batch: " followed
by the underlying text, and for the status query both a transport failure
and a response-parse failure become the InternalError "Unable to retrieve
batch statuses: " followed by the underlying text — never a BadRequest. -/
theorem C8_internal_errors :
    (∀ (client : SplinterBackendClient) (msg : SubmitBatches) (sid : String)
        (info : SplinterService) (bytes : List Nat) (err : String),
      msg.service_id = some sid → SplinterService.from_str sid = .ok info →
      submit_batches client msg (.ok bytes) (.error err)
        = .error (.InternalError ("Unable to submit batch: " ++ err))) ∧
    (∀ (client : SplinterBackendClient) (msg : BatchStatuses) (err : String)
        (json : HttpResponse → Except String (List SplinterBatchStatus)),
      status_network_called client msg = true →
      batch_status client msg (.error err) json
        = .error (.InternalError ("Unable to retrieve batch statuses: " ++ err))) ∧
    (∀ (client : SplinterBackendClient) (msg : BatchStatuses) (resp : HttpResponse)
        (json : HttpResponse → Except String (List SplinterBatchStatus)) (err : String),
      status_network_called client msg = true → json resp = .error err →
      batch_status client msg (.ok resp) json
        = .error (.InternalError ("Unable to retrieve batch statuses: " ++ err))) := by
  refine ⟨?_, ?_, ?_⟩
  · intro client msg sid info bytes err h1 h2
    simp [submit_batches, submit_prepare, h1, h2]
  · intro client msg err json h
    unfold status_network_called at h
    cases hp : batch_status_prepare client msg with
    | error e => rw [hp] at h; cases h
    | ok req => simp [batch_status, hp]
  · intro client msg resp json err h hj
    unfold status_network_called at h
    cases hp : batch_status_prepare client msg with
    | error e => rw [hp] at h; cases h
    | ok req => simp [batch_status, hp, hj]

/-- C8 witness: the three downstream-failure cases at concrete requests,
with transport error "connection refused" and parse error "bad json". -/
theorem C8_internal_errors_witness :
    submit_batches ⟨"http://node", "auth"⟩
        { service_id := some "circuit1::svc1", batch_list := ⟨[⟨"sig-a"⟩]⟩
          response_url := ⟨"http://cb", none, none⟩ }
        (.ok [1]) (.error "connection refused")
        = .error (.InternalError "Unable to submit batch: connection refused") ∧
    batch_status ⟨"http://node", "auth"⟩
        { service_id := some "circuit1::svc1", batch_ids := ["b1"], wait := none }
        (.error "connection refused") (fun _ => .ok [])
        = .error (.InternalError
            "Unable to retrieve batch statuses: connection refused") ∧
    batch_status ⟨"http://node", "auth"⟩
        { service_id := some "circuit1::svc1", batch_ids := ["b1"], wait := none }
        (.ok ⟨200, "not json"⟩) (fun _ => .error "bad json")
        = .error (.InternalError "Unable to retrieve batch statuses: bad json") :=
  ⟨C8_internal_errors.1 ⟨"http://node", "auth"⟩ _ "circuit1::svc1" ⟨"circuit1", "svc1"⟩
      [1] "connection refused" rfl rfl,
    C8_internal_errors.2.1 ⟨"http://node", "auth"⟩ _ "connection refused"
      (fun _ => .ok []) rfl,
    C8_internal_errors.2.2 ⟨"http://node", "auth"⟩ _ ⟨200, "not json"⟩
      (fun _ => .error "bad json") "bad json" rfl rfl⟩

/-- C9: setting the id parameter replaces the whole query component of the
response URL — whatever query the caller's URL already carried, the
returned link is its base, then a query holding only the id parameter,
then its unchanged fragment. -/
theorem C9_query_replacement (client : SplinterBackendClient) (msg : SubmitBatches)
    (sid : String) (info : SplinterService) (bytes : List Nat) (resp : HttpResponse)
    (h1 : msg.service_id = some sid)
    (h2 : SplinterService.from_str sid = .ok info) :
    ∀ q : Option String,
      submit_batches client
          { msg with response_url := { msg.response_url with query := q } }
          (.ok bytes) (.ok resp)
        = .ok { link := msg.response_url.base
            ++ "?" ++ ("id=" ++ batchQuery msg.batch_list)
            ++ (match msg.response_url.fragment with
                | some f => "#" ++ f
                | none => "") } := by
  intro q
  simp only [submit_batches, submit_prepare, h1, h2, Url.set_query, Url.render,
    string_append_assoc]

/-- C9 witness: the query-replacement theorem at a concrete URL that
already carries the query old=1 and a fragment; the old query is gone from
the link. -/
theorem C9_query_replacement_witness :
    submit_batches ⟨"http://node", "auth"⟩
        { service_id := some "circuit1::svc1", batch_list := ⟨[⟨"sig-a"⟩]⟩
          response_url := ⟨"http://cb", some "old=1", some "frag"⟩ }
        (.ok [7]) (.ok ⟨200, ""⟩)
      = .ok { link := "http://cb?id=sig-a#frag" } :=
  C9_query_replacement ⟨"http://node", "auth"⟩
    { service_id := some "circuit1::svc1", batch_list := ⟨[⟨"sig-a"⟩]⟩
      response_url := ⟨"http://cb", none, some "frag"⟩ }
    "circuit1::svc1" ⟨"circuit1", "svc1"⟩ [7] ⟨200, ""⟩ rfl rfl (some "old=1")

/-- C10: splitting always yields at least one segment, so resolution never
takes the first error branch: every resolution either succeeds or fails
with the second branch's fully-qualified-service-id message, and the empty
string in particular fails with that message. -/
theorem C10_first_branch_unreachable :
    (∀ l : List Char, 1 ≤ (splitColons l).length) ∧
    (∀ s : String,
      SplinterService.from_str s = .error (.BadRequestError
        "Must provide a fully-qualified service_id: <circuit_id>::<service_id>")
      ∨ ∃ svc, SplinterService.from_str s = .ok svc) ∧
    SplinterService.from_str "" = .error (.BadRequestError
      "Must provide a fully-qualified service_id: <circuit_id>::<service_id>") := by
  refine ⟨?_, ?_, rfl⟩
  · intro l
    exact List.length_pos.mpr (splitColons_ne_nil l)
  · intro s
    cases hsp : splitColons s.data with
    | nil => exact absurd hsp (splitColons_ne_nil s.data)
    | cons c rest =>
      cases rest with
      | nil =>
        left
        unfold SplinterService.from_str
        rw [hsp]
      | cons sv rest2 =>
        right
        exact ⟨_, from_str_of_split s c sv rest2 hsp⟩
